import Mathlib

/-!
Shallow embedding of the redot validator core.

Discovery layer: `src/crates/rc-validator-network/src/discovery.rs`
(`SignedValidatorRecord`, `AddrCache`, the multiaddr-to-peer-id helpers).

Worker layer: `src/crates/rc-validator/src/worker.rs`
(the `Worker` event loop, its command dispatch, DKG/Sign message handlers
and the pending one-shot reply slots).

Byte strings are modelled as `List Nat`; the external cryptographic
primitives (sr25519 signing/verification, SCALE codecs, the multihash
peer-id decoder) and the FROST protocol engine are external collaborators
of this repository and are passed in as explicit function parameters, so
every theorem quantifies over them or fixes a concrete model instance.
-/

/-! ## Discovery layer: data model -/

/-- One component of a libp2p `Multiaddr`: either a trailing `P2p`
component carrying a multihash, or any other protocol component. -/
inductive Protocol where
  | p2p (mh : Nat)
  | other (tag : Nat)
deriving DecidableEq, Repr

/-- A `Multiaddr` is a sequence of protocol components. -/
abbrev Multiaddr := List Protocol

/-- `peer_id_from_multiaddr` from discovery.rs: looks at the *last*
component of the address; if it is `P2p(multihash)` it runs
`PeerId::from_multihash` (the parameter `fm`, which may fail), otherwise
the address yields no peer id. -/
def peer_id_from_multiaddr (fm : Nat → Option Nat) (addr : Multiaddr) : Option Nat :=
  match addr.getLast? with
  | some (Protocol.p2p mh) => fm mh
  | _ => none

/-- `addresses_to_peer_ids` from discovery.rs: `filter_map` of
`peer_id_from_multiaddr` over the address set, collected as a set. -/
def addresses_to_peer_ids (fm : Nat → Option Nat) (addresses : Finset Multiaddr) : Finset Nat :=
  addresses.biUnion (fun a => (peer_id_from_multiaddr fm a).toFinset)

/-- `AddrCache` from discovery.rs. The two `HashMap`s are modelled as
functions: the forward index keeps the `Option` (absent vs present), the
reverse index is read through `entry().or_default()` semantics so an
absent entry is indistinguishable from an empty set at every use site. -/
structure AddrCache where
  authority_id_to_addresses : List Nat → Option (Finset Multiaddr)
  peer_id_to_authority_ids : Nat → Finset (List Nat)

/-- `AddrCache::new`: both maps empty. -/
def AddrCache.new : AddrCache :=
  ⟨fun _ => none, fun _ => ∅⟩

/-- `AddrCache::add_validator`: replaces the forward entry for
`validator_id` with the new address set, and for every peer id derivable
from the new set but not from the old one inserts `validator_id` into
that peer id's reverse set. Nothing is ever removed from the reverse
index. -/
def add_validator (fm : Nat → Option Nat) (c : AddrCache)
    (validator_id : List Nat) (addresses : List Multiaddr) : AddrCache :=
  let addresses_set := addresses.toFinset
  let new_peer_ids := addresses_to_peer_ids fm addresses_set
  let old_peer_ids :=
    match c.authority_id_to_addresses validator_id with
    | some s => addresses_to_peer_ids fm s
    | none => (∅ : Finset Nat)
  { authority_id_to_addresses :=
      fun v => if v = validator_id then some addresses_set else c.authority_id_to_addresses v,
    peer_id_to_authority_ids :=
      fun p =>
        if p ∈ new_peer_ids ∧ p ∉ old_peer_ids then
          insert validator_id (c.peer_id_to_authority_ids p)
        else c.peer_id_to_authority_ids p }

/-- `AddrCache::validator_addresses`: `None` when the validator is
unknown, otherwise the peer ids derivable from its stored address set. -/
def validator_addresses (fm : Nat → Option Nat) (c : AddrCache)
    (validator_id : List Nat) : Option (Finset Nat) :=
  match c.authority_id_to_addresses validator_id with
  | some addresses => some (addresses_to_peer_ids fm addresses)
  | none => none

/-- Folds a list of `add_validator` updates over a cache, modelling a
sequence of calls on the single-threaded owner. -/
def apply_adds (fm : Nat → Option Nat) (c : AddrCache) :
    List (List Nat × List Multiaddr) → AddrCache
  | [] => c
  | op :: rest => apply_adds fm (add_validator fm c op.1 op.2) rest

/-! ## Discovery layer: signed validator records -/

/-- Interface of the external cryptographic primitives used by
discovery.rs: SCALE decode of an `AuthoritySignature`, construction of
an `AuthorityId` via `from_slice`, SCALE encode of a signature,
`AuthorityPair::verify`, and the Sha2-256 digest used for the Kademlia
key. All operate on byte strings. -/
structure Crypto where
  decodeSig : List Nat → Option (List Nat)
  decodePub : List Nat → Option (List Nat)
  encodeSig : List Nat → List Nat
  verify : List Nat → List Nat → List Nat → Bool
  digest : List Nat → List Nat

/-- Interface of the keystore capability: the sr25519 public keys held
under the authority-discovery key type, and the signing operation, whose
Rust type `Result<Option<Signature>>` is `Except String (Option sig)`
here (`ok none` means the key vanished between enumeration and signing). -/
structure Keystore where
  publicKeys : List (List Nat)
  signWith : List Nat → List Nat → Except String (Option (List Nat))

/-- `SignedValidatorRecord` from discovery.rs. -/
structure SignedValidatorRecord where
  record : List (List Nat)
  validator_id : List Nat
  auth_signature : List Nat
deriving DecidableEq, Repr

/-- The signed message: `record.iter().flat_map(|v| v.iter())` — the
concatenation of the record's byte segments in order. -/
def flatten_record (r : List (List Nat)) : List Nat := r.flatten

/-- `SignedValidatorRecord::key`: the Sha2-256 digest of the raw
validator-id bytes, used as the Kademlia lookup key. -/
def kademlia_key (c : Crypto) (validator_id : List Nat) : List Nat :=
  c.digest validator_id

/-- `SignedValidatorRecord::verify_signature`. The source calls
`.expect(..)` on both decode steps, so a decode failure is a panic that
aborts the process; `none` here models that panic, while `some b` is the
value actually returned when both decodes succeed. -/
def verify_signature (c : Crypto) (r : SignedValidatorRecord) : Option Bool :=
  match c.decodeSig r.auth_signature with
  | none => none
  | some signature =>
    match c.decodePub r.validator_id with
    | none => none
    | some public_key =>
      some (c.verify signature (flatten_record r.record) public_key)

/-- Error text of the `ok none` arm of `sr25519_sign` in `sign_record`. -/
def keyNotFoundMsg : String := "Could not find key in keystore"

/-- The loop body of `SignedValidatorRecord::sign_record` over the list
of keystore keys: signs the flattened record with each key in order,
aborting the whole call on the first signing failure (the `?` operator),
and otherwise pairing each signed record with its Kademlia key. -/
def sign_record_go (c : Crypto) (ks : Keystore) (serialized : List (List Nat)) :
    List (List Nat) → Except String (List (SignedValidatorRecord × List Nat))
  | [] => Except.ok []
  | key :: rest =>
    match ks.signWith key (flatten_record serialized) with
    | Except.error e => Except.error e
    | Except.ok none => Except.error keyNotFoundMsg
    | Except.ok (some sig) =>
      match sign_record_go c ks serialized rest with
      | Except.error e => Except.error e
      | Except.ok tail =>
        Except.ok ((⟨serialized, key, c.encodeSig sig⟩, kademlia_key c key) :: tail)

/-- `SignedValidatorRecord::sign_record`: runs the signing loop over the
keystore's authority-discovery public keys. -/
def sign_record (c : Crypto) (ks : Keystore) (serialized : List (List Nat)) :
    Except String (List (SignedValidatorRecord × List Nat)) :=
  sign_record_go c ks serialized ks.publicKeys

/-- Model instance of the external codecs with their real behavior:
SCALE decode of an sr25519 `AuthoritySignature` consumes a fixed 64
bytes and fails on shorter input, and `AuthorityId::from_slice` succeeds
exactly on 32-byte input. The verify function itself is irrelevant to
the decode-failure path. -/
def scale_like : Crypto :=
  { decodeSig := fun bs => if 64 ≤ bs.length then some (bs.take 64) else none,
    decodePub := fun bs => if bs.length = 32 then some bs else none,
    encodeSig := fun s => s,
    verify := fun _ _ _ => false,
    digest := fun bs => bs }

/-! ## Worker layer: data model

Embedding of `src/crates/rc-validator/src/worker.rs`. The worker owns a
FROST engine instance (`frost_dkg`), two pending one-shot reply slots
(`dkg_sender`, `sign_sender`), and reacts to three event sources. Its
observable behavior per event is a new state plus a list of effects:
publishes to gossip topics, replies on one-shot channels (channels are
named by numbers), and log lines. The FROST engine
(`redot_core_primitives::crypto::FrostDkg`) is a collaborator from a
crate outside this core, so its operations are a parameter `FrostOps`:
each `&mut self` method becomes `state → args → state × result`. The
serde-json codec of gossip payloads is likewise a parameter `Codec`. -/

/-- `QueryResultSender` from worker.rs: a pending one-shot reply channel
tagged with the request kind. -/
inductive QueryResultSender where
  | rotateKey (ch : Nat)
  | sign (ch : Nat)
deriving DecidableEq, Repr

/-- `DkgMessage` from redot-core-primitives, as routed by worker.rs:
first-phase or second-phase payload (payload contents abstracted). -/
inductive DkgMessage where
  | dkgPart1 (m : Nat)
  | dkgPart2 (m : Nat)
deriving DecidableEq, Repr

/-- `SignMessage`, the two phases of the signing sub-protocol. -/
inductive SignMessage where
  | signPart1 (m : Nat)
  | signPart2 (m : Nat)
deriving DecidableEq, Repr

/-- What the worker publishes: a serialized engine message, the
serialized `None : Option<VerifyingKey>` of the not-yet-complete DKG
part-2 branch, or the re-broadcast of a received sign part-1 message. -/
inductive Payload where
  | raw (m : Nat)
  | noneKey
  | signPart1Again (m : Nat)
deriving DecidableEq, Repr

/-- Observable effects of one worker step: topic publishes, one-shot
replies (delivery into a possibly-abandoned channel is still one
delivery; the send error is only logged), and error-log lines. -/
inductive Effect where
  | publish (topic : String) (p : Payload)
  | replyRotateKey (ch : Nat) (res : Except String Nat)
  | replySign (ch : Nat) (res : Except String Nat)
  | replySetup (ch : Nat) (res : Except String Unit)
  | replyValidators (ch : Nat) (ok : Bool)
  | logError (msg : String)

/-- The FROST engine interface: `start_dkg`, `dkg_part1`, `dkg_part2`,
`start_sign`, `sign_part1`, `sign_part2`, `set_nt`, each taking and
returning the (abstracted) engine state. -/
structure FrostOps where
  startDkg : Nat → Nat × Except String Nat
  dkgPart1 : Nat → Nat → Nat × Except String Nat
  dkgPart2 : Nat → Nat → Nat × Except String (Option Nat)
  startSign : Nat → List Nat → Nat × Except String Nat
  signPart1 : Nat → Nat → Nat × Except String Nat
  signPart2 : Nat → Nat → Nat × Except String (Option Nat)
  setNt : Nat → Nat → Nat → Nat × Except String Unit

/-- The serde-json decoding of raw gossip bytes into protocol messages;
`none` is a deserialization failure. -/
structure Codec where
  decodeDkg : List Nat → Option DkgMessage
  decodeSign : List Nat → Option SignMessage

/-- `Worker` state from worker.rs (the network handle and command
receiver live in the event-loop context and appear as effects/events). -/
structure Worker where
  frost_dkg : Nat
  dkg_sender : Option QueryResultSender
  sign_sender : Option QueryResultSender
deriving DecidableEq, Repr

/-- `Command` from the shared module, as consumed by `handle_command`. -/
inductive Command where
  | rotateKey (sender : Nat)
  | sign (message : List Nat) (sender : Nat)
  | setup (n t : Nat) (sender : Nat)
  | addValidators (validators : List (List Nat)) (sender : Nat)
  | removeValidators (validators : List (List Nat)) (sender : Nat)

/-- Topic name constant from worker.rs. -/
def DKG_TOPIC : String := "dkg_topic"

/-- Topic name constant from worker.rs. -/
def SIGN_TOPIC : String := "sign_topic"

/-- The busy-error text of the `Sign` command's occupied-slot branch. -/
def busyMsg : String := "Another sign request is in progress"

/-- Log line of a DKG-topic deserialization failure. -/
def dkgDeserLog : String := "Failed to deserialize DKG message"

/-- Log line of a Sign-topic deserialization failure. -/
def signDeserLog : String := "Failed to deserialize SignMessage"

/-- Log line of a failed first DKG phase. -/
def dkgPart1ErrLog : String := "Error in DKG Part1 processing"

/-- Log line of a failed second DKG phase. -/
def dkgPart2ErrLog : String := "Error in DKG Part2 processing."

/-- Log line of a failed first Sign phase. -/
def signPart1ErrLog : String := "Error in Sign Part1 processing"

/-- The `handle_send!(RotateKey, slot, res)` macro: the slot has already
been `take`n by the caller; a reply is emitted only when the taken value
is a `RotateKey` channel. -/
def deliver_rotate (slot : Option QueryResultSender) (res : Except String Nat) : List Effect :=
  match slot with
  | some (QueryResultSender.rotateKey ch) => [Effect.replyRotateKey ch res]
  | _ => []

/-- The `handle_send!(Sign, slot, res)` macro, `Sign` variant. -/
def deliver_sign (slot : Option QueryResultSender) (res : Except String Nat) : List Effect :=
  match slot with
  | some (QueryResultSender.sign ch) => [Effect.replySign ch res]
  | _ => []

/-- `Worker::start_dkg`: asks the engine to begin key generation and
publishes the produced first-phase message; an engine error is only
logged. -/
def start_dkg (ops : FrostOps) (w : Worker) : Worker × List Effect :=
  match ops.startDkg w.frost_dkg with
  | (st, Except.ok msg) =>
    ({ w with frost_dkg := st }, [Effect.publish DKG_TOPIC (Payload.raw msg)])
  | (st, Except.error _) =>
    ({ w with frost_dkg := st }, [Effect.logError dkgPart1ErrLog])

/-- `Worker::start_sign`: mirrors `start_dkg` for the signing protocol. -/
def start_sign (ops : FrostOps) (w : Worker) (message : List Nat) : Worker × List Effect :=
  match ops.startSign w.frost_dkg message with
  | (st, Except.ok msg) =>
    ({ w with frost_dkg := st }, [Effect.publish SIGN_TOPIC (Payload.raw msg)])
  | (st, Except.error _) =>
    ({ w with frost_dkg := st }, [Effect.logError signPart1ErrLog])

/-- `Worker::handle_command`. `RotateKey` starts key generation and
unconditionally overwrites the DKG reply slot; `Sign` checks the busy
guard first; `Setup` calls `set_nt` and replies synchronously;
`AddValidators`/`RemoveValidators` forward to the network service (whose
result is abstracted as a successful reply here). -/
def handle_command (ops : FrostOps) (w : Worker) (c : Command) : Worker × List Effect :=
  match c with
  | Command.rotateKey sender =>
    let r := start_dkg ops w
    ({ r.1 with dkg_sender := some (QueryResultSender.rotateKey sender) }, r.2)
  | Command.sign message sender =>
    if w.sign_sender.isSome then
      (w, [Effect.replySign sender (Except.error busyMsg)])
    else
      let r := start_sign ops w message
      ({ r.1 with sign_sender := some (QueryResultSender.sign sender) }, r.2)
  | Command.setup n t sender =>
    match ops.setNt w.frost_dkg n t with
    | (st, res) => ({ w with frost_dkg := st }, [Effect.replySetup sender res])
  | Command.addValidators _ sender => (w, [Effect.replyValidators sender true])
  | Command.removeValidators _ sender => (w, [Effect.replyValidators sender true])

/-- `Worker::handle_dkg_message`: deserialization failure is logged and
the message dropped; part 1 advances the engine and publishes the
response; part 2 either completes (the verifying key is sent through the
taken DKG slot), stays incomplete (the engine's `None` is serialized and
published back, the slot untouched), or errors (the error is sent
through the taken slot, then logged). -/
def handle_dkg_message (ops : FrostOps) (cd : Codec) (w : Worker) (raw : List Nat) :
    Worker × List Effect :=
  match cd.decodeDkg raw with
  | none => (w, [Effect.logError dkgDeserLog])
  | some (DkgMessage.dkgPart1 m) =>
    match ops.dkgPart1 w.frost_dkg m with
    | (st, Except.ok msg) =>
      ({ w with frost_dkg := st }, [Effect.publish DKG_TOPIC (Payload.raw msg)])
    | (st, Except.error _) =>
      ({ w with frost_dkg := st }, [Effect.logError dkgPart1ErrLog])
  | some (DkgMessage.dkgPart2 m) =>
    match ops.dkgPart2 w.frost_dkg m with
    | (st, Except.ok (some key)) =>
      ({ w with frost_dkg := st, dkg_sender := none },
        deliver_rotate w.dkg_sender (Except.ok key))
    | (st, Except.ok none) =>
      ({ w with frost_dkg := st }, [Effect.publish DKG_TOPIC Payload.noneKey])
    | (st, Except.error e) =>
      ({ w with frost_dkg := st, dkg_sender := none },
        deliver_rotate w.dkg_sender (Except.error e) ++ [Effect.logError dkgPart2ErrLog])

/-- `Worker::handle_sign_message`: deserialization failure is logged and
the message dropped; part 1 advances the engine, publishes the response
and re-broadcasts the received part-1 message; part 2 either completes
(signature sent through the taken Sign slot), stays incomplete (nothing
happens, the slot untouched), or errors (error sent through the taken
slot). -/
def handle_sign_message (ops : FrostOps) (cd : Codec) (w : Worker) (raw : List Nat) :
    Worker × List Effect :=
  match cd.decodeSign raw with
  | none => (w, [Effect.logError signDeserLog])
  | some (SignMessage.signPart1 m) =>
    match ops.signPart1 w.frost_dkg m with
    | (st, Except.ok msg) =>
      ({ w with frost_dkg := st },
        [Effect.publish SIGN_TOPIC (Payload.raw msg),
         Effect.publish SIGN_TOPIC (Payload.signPart1Again m)])
    | (st, Except.error _) =>
      ({ w with frost_dkg := st },
        [Effect.logError signPart1ErrLog,
         Effect.publish SIGN_TOPIC (Payload.signPart1Again m)])
  | some (SignMessage.signPart2 m) =>
    match ops.signPart2 w.frost_dkg m with
    | (st, Except.ok (some sign)) =>
      ({ w with frost_dkg := st, sign_sender := none },
        deliver_sign w.sign_sender (Except.ok sign))
    | (st, Except.ok none) => ({ w with frost_dkg := st }, [])
    | (st, Except.error e) =>
      ({ w with frost_dkg := st, sign_sender := none },
        deliver_sign w.sign_sender (Except.error e))

/-- One arm of the `futures::select!` in `Worker::run`. -/
inductive Event where
  | dkgMsg (raw : List Nat)
  | signMsg (raw : List Nat)
  | cmd (c : Command)

/-- Dispatch of one ready event, as in the `select!` arms of
`Worker::run`. -/
def step_event (ops : FrostOps) (cd : Codec) (w : Worker) (ev : Event) :
    Worker × List Effect :=
  match ev with
  | Event.dkgMsg raw => handle_dkg_message ops cd w raw
  | Event.signMsg raw => handle_sign_message ops cd w raw
  | Event.cmd c => handle_command ops w c

/-- The worker event loop on a finite arrival sequence: events are
processed strictly one at a time in arrival order, accumulating
effects. -/
def run_events (ops : FrostOps) (cd : Codec) : Worker → List Event → Worker × List Effect
  | w, [] => (w, [])
  | w, e :: rest =>
    let r := step_event ops cd w e
    let r2 := run_events ops cd r.1 rest
    (r2.1, r.2 ++ r2.2)

/-! ## Model instances used by the witnesses -/

/-- Idealized signature: the signature of message `m` under key `k` is
the pair `(k, m)` coded as a length-prefixed concatenation. Injective in
both the key and the message. -/
def pair_sig (k m : List Nat) : List Nat := k.length :: (k ++ m)

/-- Idealized crypto instance: encodings are the identity and a
signature verifies exactly when it is `pair_sig` of the key and
message. Satisfies the correctness and uniqueness hypotheses of the
round-trip theorem. -/
def pair_sig_crypto : Crypto :=
  { decodeSig := fun bs => some bs,
    decodePub := fun bs => some bs,
    encodeSig := fun s => s,
    verify := fun s m k => decide (s = pair_sig k m),
    digest := fun bs => bs }

/-- A keystore holding the single authority key `[1, 2]` and signing
with `pair_sig`. -/
def pair_sig_keystore : Keystore :=
  { publicKeys := [[1, 2]],
    signWith := fun k m => Except.ok (some (pair_sig k m)) }

/-- A keystore whose only key vanished between enumeration and signing:
`sr25519_sign` returns `ok none`. -/
def vanished_keystore : Keystore :=
  { publicKeys := [[1, 2]],
    signWith := fun _ _ => Except.ok none }

/-- Error text used by the toy engine. -/
def protoErr : String := "protocol error"

/-- A deterministic toy FROST engine: part-2 messages with payload `0`
fail, all others complete the round (key `42`, signature `7`); the
engine state counts steps. -/
def toyOps : FrostOps :=
  { startDkg := fun s => (s + 1, Except.ok 100),
    dkgPart1 := fun s m => (s + 1, Except.ok (m + 1)),
    dkgPart2 := fun s m =>
      if m = 0 then (s + 1, Except.error protoErr) else (s + 1, Except.ok (some 42)),
    startSign := fun s _ => (s + 1, Except.ok 200),
    signPart1 := fun s m => (s + 1, Except.ok (m + 1)),
    signPart2 := fun s m =>
      if m = 0 then (s + 1, Except.error protoErr) else (s + 1, Except.ok (some 7)),
    setNt := fun s _ _ => (s, Except.ok ()) }

/-- A toy codec: `[1, m]` is a part-1 message, `[2, m]` a part-2
message, anything else malformed. -/
def toyCodec : Codec :=
  { decodeDkg := fun raw =>
      match raw with
      | [1, m] => some (DkgMessage.dkgPart1 m)
      | [2, m] => some (DkgMessage.dkgPart2 m)
      | _ => none,
    decodeSign := fun raw =>
      match raw with
      | [1, m] => some (SignMessage.signPart1 m)
      | [2, m] => some (SignMessage.signPart2 m)
      | _ => none }

/-! ## Theorems: discovery layer -/

/-- C1: the claim says a `SignedValidatorRecord` whose `auth_signature`
bytes do not decode must make `verify()` return `false` rather than
abort. The source instead calls `.expect("Decode signature failed")`:
on a record with an empty `auth_signature` the decode fails and the
process panics (`none` in this model), so the decode-failure branch IS
a crash, not a `false` verdict. -/
theorem c1_decode_failure_is_a_panic :
    verify_signature scale_like ⟨[[1]], List.replicate 32 0, []⟩ = none ∧
    verify_signature scale_like ⟨[[1]], List.replicate 32 0, []⟩ ≠ some false := by
  refine ⟨rfl, ?_⟩
  intro h
  simp [verify_signature, scale_like] at h

/-- C5: immediately after `add_validator V A`, `validator_addresses V`
returns exactly the peer ids extractable from the addresses of `A`; an
address whose last component is not a `P2p` component contributes no
peer id. -/
theorem c5_lookup_after_add (fm : Nat → Option Nat) (c : AddrCache)
    (v : List Nat) (A : List Multiaddr) :
    validator_addresses fm (add_validator fm c v A) v
      = some (addresses_to_peer_ids fm A.toFinset) ∧
    (∀ p, p ∈ addresses_to_peer_ids fm A.toFinset ↔
      ∃ a ∈ A, peer_id_from_multiaddr fm a = some p) ∧
    (∀ a : Multiaddr, (∀ mh, a.getLast? ≠ some (Protocol.p2p mh)) →
      peer_id_from_multiaddr fm a = none) := by
  refine ⟨?_, ?_, ?_⟩
  · simp [validator_addresses, add_validator]
  · intro p
    simp [addresses_to_peer_ids, Finset.mem_biUnion, Option.mem_toFinset,
      List.mem_toFinset, Option.mem_def]
  · intro a h
    unfold peer_id_from_multiaddr
    match hl : a.getLast? with
    | some (Protocol.p2p mh) => exact absurd hl (h mh)
    | some (Protocol.other t) => rfl
    | none => rfl

/-- C5 witness: a two-address update where one address carries a
trailing `P2p` component and the other does not. -/
theorem c5_lookup_after_add_witness :
    validator_addresses (fun mh => some mh)
        (add_validator (fun mh => some mh) AddrCache.new [1]
          [[Protocol.p2p 7], [Protocol.other 3]]) [1]
      = some (addresses_to_peer_ids (fun mh => some mh)
          ([[Protocol.p2p 7], [Protocol.other 3]] : List Multiaddr).toFinset) ∧
    peer_id_from_multiaddr (fun mh => some mh) [Protocol.other 3] = none := by
  refine ⟨(c5_lookup_after_add (fun mh => some mh) AddrCache.new [1]
    [[Protocol.p2p 7], [Protocol.other 3]]).1, ?_⟩
  exact (c5_lookup_after_add (fun mh => some mh) AddrCache.new [1]
    [[Protocol.p2p 7], [Protocol.other 3]]).2.2 [Protocol.other 3]
    (by intro mh; simp [List.getLast?])

/-- C6: after `add(V, S1)` then `add(V, S2)` the forward entry for `V`
is exactly `S2`'s address set (full replacement), the reverse index
never loses members across the second update, `V` is inserted for every
peer id newly present in `S2`, and the reverse entry of a peer id not
derivable from `S2` is left untouched (stale mappings persist). -/
theorem c6_replace_forward_grow_reverse (fm : Nat → Option Nat) (c : AddrCache)
    (v : List Nat) (S1 S2 : List Multiaddr) :
    (add_validator fm (add_validator fm c v S1) v S2).authority_id_to_addresses v
      = some S2.toFinset ∧
    (∀ c0 : AddrCache, ∀ v0 A0 p,
      c0.peer_id_to_authority_ids p ⊆
        (add_validator fm c0 v0 A0).peer_id_to_authority_ids p) ∧
    (∀ p, p ∈ addresses_to_peer_ids fm S2.toFinset →
      p ∉ addresses_to_peer_ids fm S1.toFinset →
      v ∈ (add_validator fm (add_validator fm c v S1) v S2).peer_id_to_authority_ids p) ∧
    (∀ p, p ∉ addresses_to_peer_ids fm S2.toFinset →
      (add_validator fm (add_validator fm c v S1) v S2).peer_id_to_authority_ids p
        = (add_validator fm c v S1).peer_id_to_authority_ids p) := by
  refine ⟨?_, ?_, ?_, ?_⟩
  · simp [add_validator]
  · intro c0 v0 A0 p x hx
    simp only [add_validator]
    split
    · exact Finset.mem_insert_of_mem hx
    · exact hx
  · intro p hp2 hp1
    conv => rw [add_validator]
    have hfwd : (add_validator fm c v S1).authority_id_to_addresses v = some S1.toFinset := by
      simp [add_validator]
    simp only [hfwd]
    rw [if_pos ⟨hp2, hp1⟩]
    exact Finset.mem_insert_self v _
  · intro p hp2
    conv => rw [add_validator]
    have hfwd : (add_validator fm c v S1).authority_id_to_addresses v = some S1.toFinset := by
      simp [add_validator]
    simp only [hfwd]
    rw [if_neg]
    intro hcon
    exact hp2 hcon.1

/-- C6 witness: updating validator `[1]` from an address resolving to
peer `5` to one resolving to peer `6` replaces the forward entry, adds
`[1]` under peer `6`, and leaves the stale mapping under peer `5`. -/
theorem c6_replace_forward_grow_reverse_witness :
    (add_validator (fun mh => some mh)
        (add_validator (fun mh => some mh) AddrCache.new [1] [[Protocol.p2p 5]])
        [1] [[Protocol.p2p 6]]).authority_id_to_addresses [1]
      = some ([[Protocol.p2p 6]] : List Multiaddr).toFinset ∧
    ([1] : List Nat) ∈ (add_validator (fun mh => some mh)
        (add_validator (fun mh => some mh) AddrCache.new [1] [[Protocol.p2p 5]])
        [1] [[Protocol.p2p 6]]).peer_id_to_authority_ids 6 ∧
    ([1] : List Nat) ∈ (add_validator (fun mh => some mh)
        (add_validator (fun mh => some mh) AddrCache.new [1] [[Protocol.p2p 5]])
        [1] [[Protocol.p2p 6]]).peer_id_to_authority_ids 5 := by
  have h := c6_replace_forward_grow_reverse (fun mh => some mh) AddrCache.new
    [1] [[Protocol.p2p 5]] [[Protocol.p2p 6]]
  refine ⟨h.1, h.2.2.1 6 (by decide) (by decide), ?_⟩
  exact h.2.1 (add_validator (fun mh => some mh) AddrCache.new [1] [[Protocol.p2p 5]])
    [1] [[Protocol.p2p 6]] 5 (by decide)

/-- Helper for C10: a validator never named in a sequence of updates
stays absent from the forward index. -/
theorem apply_adds_fwd_none (fm : Nat → Option Nat)
    (ops : List (List Nat × List Multiaddr)) (v : List Nat) :
    (∀ op ∈ ops, op.1 ≠ v) → ∀ c : AddrCache,
    c.authority_id_to_addresses v = none →
    (apply_adds fm c ops).authority_id_to_addresses v = none := by
  induction ops with
  | nil => intro _ c hc; exact hc
  | cons op rest ih =>
    intro h c hc
    refine ih (fun o ho => h o (List.mem_cons_of_mem op ho)) _ ?_
    simp only [add_validator]
    rw [if_neg]
    · exact hc
    · exact fun hv => h op (List.mem_cons_self op rest) (hv ▸ rfl)

/-- C10: a validator never passed to `add_validator` looks up to `none`,
while any validator just added — even with an empty address list —
looks up to `some` of a (possibly empty) peer-id set, never `none`. -/
theorem c10_none_iff_unknown (fm : Nat → Option Nat)
    (ops : List (List Nat × List Multiaddr)) (v : List Nat)
    (h : ∀ op ∈ ops, op.1 ≠ v) :
    validator_addresses fm (apply_adds fm AddrCache.new ops) v = none ∧
    (∀ (c : AddrCache) (A : List Multiaddr),
      (validator_addresses fm (add_validator fm c v A) v).isSome = true) ∧
    (∀ c : AddrCache,
      validator_addresses fm (add_validator fm c v []) v = some ∅) := by
  refine ⟨?_, ?_, ?_⟩
  · unfold validator_addresses
    rw [apply_adds_fwd_none fm ops v h AddrCache.new rfl]
  · intro c A
    simp [validator_addresses, add_validator]
  · intro c
    simp [validator_addresses, add_validator, addresses_to_peer_ids]

/-- C10 witness: validator `[2]` was never added, so it looks up to
`none`; adding it with an empty address list yields `some ∅`. -/
theorem c10_none_iff_unknown_witness :
    validator_addresses (fun mh => some mh)
        (apply_adds (fun mh => some mh) AddrCache.new [([1], [[Protocol.p2p 4]])]) [2]
      = none ∧
    validator_addresses (fun mh => some mh)
        (add_validator (fun mh => some mh) AddrCache.new [2] []) [2] = some ∅ := by
  have h := c10_none_iff_unknown (fun mh => some mh) [([1], [[Protocol.p2p 4]])] [2]
    (by decide)
  exact ⟨h.1, h.2.2 AddrCache.new⟩

/-- Helper: the signing loop succeeds and produces exactly one record
per key when every listed key signs successfully. -/
theorem sign_record_go_eq_map (c : Crypto) (ks : Keystore) (sr : List (List Nat))
    (sigOf : List Nat → List Nat) :
    ∀ keys : List (List Nat),
    (∀ k ∈ keys, ks.signWith k (flatten_record sr) = Except.ok (some (sigOf k))) →
    sign_record_go c ks sr keys
      = Except.ok (keys.map fun k => (⟨sr, k, c.encodeSig (sigOf k)⟩, kademlia_key c k)) := by
  intro keys
  induction keys with
  | nil => intro _; rfl
  | cons key rest ih =>
    intro h
    have hkey := h key (List.mem_cons_self key rest)
    have hrest := ih (fun k hk => h k (List.mem_cons_of_mem key hk))
    simp [sign_record_go, hkey, hrest]

/-- Helper: the signing loop aborts with an error as soon as any listed
key cannot produce a signature. -/
theorem sign_record_go_error (c : Crypto) (ks : Keystore) (sr : List (List Nat)) :
    ∀ keys : List (List Nat),
    (∃ k ∈ keys, ∀ s, ks.signWith k (flatten_record sr) ≠ Except.ok (some s)) →
    ∃ e, sign_record_go c ks sr keys = Except.error e := by
  intro keys
  induction keys with
  | nil => rintro ⟨k, hk, _⟩; exact absurd hk (List.not_mem_nil k)
  | cons key rest ih =>
    rintro ⟨k, hk, hfail⟩
    match h1 : ks.signWith key (flatten_record sr) with
    | Except.error e => exact ⟨e, by simp [sign_record_go, h1]⟩
    | Except.ok none => exact ⟨keyNotFoundMsg, by simp [sign_record_go, h1]⟩
    | Except.ok (some s) =>
      rcases List.mem_cons.mp hk with heq | hmem
      · exact absurd h1 (heq ▸ hfail s)
      · obtain ⟨e, herr⟩ := ih ⟨k, hmem, hfail⟩
        exact ⟨e, by simp [sign_record_go, h1, herr]⟩

/-- Helper: two record payloads with the same segment shape and the same
flattening are equal, so changing a byte inside one segment changes the
signed message. -/
theorem flatten_record_inj :
    ∀ {l1 l2 : List (List Nat)}, l1.map List.length = l2.map List.length →
    flatten_record l1 = flatten_record l2 → l1 = l2 := by
  intro l1
  induction l1 with
  | nil =>
    intro l2 hs _
    cases l2 with
    | nil => rfl
    | cons h t => simp at hs
  | cons h1 t1 ih =>
    intro l2 hs hj
    cases l2 with
    | nil => simp at hs
    | cons h2 t2 =>
      simp only [List.map_cons, List.cons.injEq] at hs
      simp only [flatten_record, List.flatten_cons] at hj
      obtain ⟨hh, ht⟩ := List.append_inj hj hs.1
      rw [hh, ih hs.2 ht]

/-- C7: `sign_record` emits one signed record, paired with its Kademlia
lookup key, per authority key held in the keystore; and if any selected
key cannot produce a signature the whole call returns an error, with no
partial list. -/
theorem c7_sign_record_all_or_nothing (c : Crypto) (ks : Keystore)
    (sr : List (List Nat)) (sigOf : List Nat → List Nat) :
    ((∀ k ∈ ks.publicKeys, ks.signWith k (flatten_record sr) = Except.ok (some (sigOf k))) →
      sign_record c ks sr = Except.ok (ks.publicKeys.map
        fun k => (⟨sr, k, c.encodeSig (sigOf k)⟩, kademlia_key c k))) ∧
    ((∃ k ∈ ks.publicKeys, ∀ s, ks.signWith k (flatten_record sr) ≠ Except.ok (some s)) →
      ∃ e, sign_record c ks sr = Except.error e) := by
  exact ⟨fun h => sign_record_go_eq_map c ks sr sigOf ks.publicKeys h,
    fun h => sign_record_go_error c ks sr ks.publicKeys h⟩

/-- C7 witness: a keystore whose single key signs produces exactly one
record; a keystore whose key vanished makes the whole call error. -/
theorem c7_sign_record_all_or_nothing_witness :
    sign_record pair_sig_crypto pair_sig_keystore [[5], [6]]
      = Except.ok [(⟨[[5], [6]], [1, 2], [2, 1, 2, 5, 6]⟩, [1, 2])] ∧
    (∃ e, sign_record pair_sig_crypto vanished_keystore [[5], [6]] = Except.error e) := by
  constructor
  · exact (c7_sign_record_all_or_nothing pair_sig_crypto pair_sig_keystore [[5], [6]]
      (fun k => pair_sig k [5, 6])).1 (fun k _ => rfl)
  · refine (c7_sign_record_all_or_nothing pair_sig_crypto vanished_keystore [[5], [6]]
      (fun _ => [])).2 ⟨[1, 2], by simp [vanished_keystore], ?_⟩
    intro s h
    simp [vanished_keystore] at h

/-- C4: every record produced by `sign_record` for a keystore key passes
`verify_signature`; and — under the idealized-signature hypotheses that
decoding is the identity and a signature verifies exactly for its
genuine key/message pair — changing the bytes of any one of `record`
(shape-preserving), `validator_id`, or `auth_signature` yields a record
on which `verify_signature` returns `some false`. -/
theorem c4_sign_verify_roundtrip_tamper (c : Crypto) (ks : Keystore)
    (sr : List (List Nat)) (sigOf : List Nat → List Nat → List Nat)
    (hsign : ∀ k m, ks.signWith k m = Except.ok (some (sigOf k m)))
    (hdecSig : ∀ bs, c.decodeSig bs = some bs)
    (hencSig : ∀ s, c.encodeSig s = s)
    (hdecPub : ∀ bs, c.decodePub bs = some bs)
    (hver : ∀ s m k, c.verify s m k = true ↔ s = sigOf k m)
    (hinjm : ∀ k m m', sigOf k m = sigOf k m' → m = m')
    (hinjk : ∀ k k' m, sigOf k m = sigOf k' m → k = k') :
    (∃ l, sign_record c ks sr = Except.ok l) ∧
    (∀ l, sign_record c ks sr = Except.ok l → ∀ rk ∈ l,
      verify_signature c rk.1 = some true ∧
      (∀ r' : SignedValidatorRecord, r'.validator_id = rk.1.validator_id →
        r'.auth_signature = rk.1.auth_signature →
        r'.record.map List.length = rk.1.record.map List.length →
        r'.record ≠ rk.1.record → verify_signature c r' = some false) ∧
      (∀ r' : SignedValidatorRecord, r'.record = rk.1.record →
        r'.auth_signature = rk.1.auth_signature →
        r'.validator_id ≠ rk.1.validator_id → verify_signature c r' = some false) ∧
      (∀ r' : SignedValidatorRecord, r'.record = rk.1.record →
        r'.validator_id = rk.1.validator_id →
        r'.auth_signature.length = rk.1.auth_signature.length →
        r'.auth_signature ≠ rk.1.auth_signature → verify_signature c r' = some false)) := by
  have hmap := sign_record_go_eq_map c ks sr (fun k => sigOf k (flatten_record sr))
    ks.publicKeys (fun k _ => hsign k (flatten_record sr))
  constructor
  · exact ⟨_, hmap⟩
  · intro l hl rk hrk
    rw [sign_record] at hl
    rw [hmap] at hl
    obtain rfl := Except.ok.inj hl
    obtain ⟨k, hk, rfl⟩ := List.mem_map.mp hrk
    refine ⟨?_, ?_, ?_, ?_⟩
    · simp only [verify_signature, hencSig, hdecSig, hdecPub]
      exact congrArg some ((hver _ _ _).mpr rfl)
    · intro r' hvid hsig hshape hne
      simp only at hvid hsig hshape hne
      simp only [verify_signature, hsig, hvid, hencSig, hdecSig, hdecPub]
      refine congrArg some ?_
      cases hb : c.verify (sigOf k (flatten_record sr)) (flatten_record r'.record) k with
      | false => rfl
      | true =>
        have h1 := (hver _ _ _).mp hb
        have h2 := hinjm k (flatten_record r'.record) (flatten_record sr) h1.symm
        exact absurd (flatten_record_inj hshape h2) hne
    · intro r' hrec hsig hvid
      simp only at hrec hsig hvid
      simp only [verify_signature, hsig, hrec, hencSig, hdecSig, hdecPub]
      refine congrArg some ?_
      cases hb : c.verify (sigOf k (flatten_record sr)) (flatten_record sr) r'.validator_id with
      | false => rfl
      | true =>
        have h1 := (hver _ _ _).mp hb
        exact absurd (hinjk k r'.validator_id (flatten_record sr) h1) (Ne.symm hvid)
    · intro r' hrec hvid _ hsig
      simp only at hrec hvid hsig
      simp only [verify_signature, hrec, hvid, hencSig, hdecSig, hdecPub]
      refine congrArg some ?_
      cases hb : c.verify r'.auth_signature (flatten_record sr) k with
      | false => rfl
      | true =>
        have h1 := (hver _ _ _).mp hb
        rw [hencSig] at hsig
        exact absurd h1 hsig

/-- C4 witness: with the idealized pair-signature scheme, the produced
record verifies, and flipping a byte of `record`, `validator_id`, or
`auth_signature` each makes verification return `false`. -/
theorem c4_sign_verify_roundtrip_tamper_witness :
    verify_signature pair_sig_crypto ⟨[[5], [6]], [1, 2], [2, 1, 2, 5, 6]⟩ = some true ∧
    verify_signature pair_sig_crypto ⟨[[5], [7]], [1, 2], [2, 1, 2, 5, 6]⟩ = some false ∧
    verify_signature pair_sig_crypto ⟨[[5], [6]], [1, 3], [2, 1, 2, 5, 6]⟩ = some false ∧
    verify_signature pair_sig_crypto ⟨[[5], [6]], [1, 2], [2, 1, 2, 5, 7]⟩ = some false := by
  have hver : ∀ s m k, pair_sig_crypto.verify s m k = true ↔ s = pair_sig k m := by
    intro s m k
    exact decide_eq_true_iff
  have hinjm : ∀ k m m', pair_sig k m = pair_sig k m' → m = m' := by
    intro k m m' h
    simp only [pair_sig, List.cons.injEq] at h
    exact (List.append_inj h.2 rfl).2
  have hinjk : ∀ k k' m, pair_sig k m = pair_sig k' m → k = k' := by
    intro k k' m h
    simp only [pair_sig, List.cons.injEq] at h
    exact (List.append_inj h.2 h.1).1
  have h := c4_sign_verify_roundtrip_tamper pair_sig_crypto pair_sig_keystore [[5], [6]]
    (fun k m => pair_sig k m) (fun k m => rfl) (fun bs => rfl) (fun s => rfl) (fun bs => rfl)
    hver hinjm hinjk
  have hsr : sign_record pair_sig_crypto pair_sig_keystore [[5], [6]]
      = Except.ok [(⟨[[5], [6]], [1, 2], [2, 1, 2, 5, 6]⟩, [1, 2])] := rfl
  have hp := h.2 _ hsr (⟨[[5], [6]], [1, 2], [2, 1, 2, 5, 6]⟩, ([1, 2] : List Nat))
    (List.mem_singleton.mpr rfl)
  refine ⟨hp.1, ?_, ?_, ?_⟩
  · exact hp.2.1 ⟨[[5], [7]], [1, 2], [2, 1, 2, 5, 6]⟩ rfl rfl (by decide) (by decide)
  · exact hp.2.2.1 ⟨[[5], [6]], [1, 3], [2, 1, 2, 5, 6]⟩ rfl rfl (by decide)
  · exact hp.2.2.2 ⟨[[5], [6]], [1, 2], [2, 1, 2, 5, 7]⟩ rfl rfl (by decide) (by decide)

/-! ## Theorems: worker layer -/

/-- C2: a `Sign` command arriving while the signing reply slot is
occupied is answered immediately with the busy error, the worker state —
including the occupied slot and the engine — is left completely
unchanged and no protocol work (no publish, no engine call) happens; and
when the pending round later completes via a second-phase message, the
original channel still receives its signature and the slot is cleared. -/
theorem c2_sign_busy_guard (ops : FrostOps) (cd : Codec) (w : Worker)
    (ch0 ch : Nat) (msg raw : List Nat) (m st' sig : Nat)
    (hslot : w.sign_sender = some (QueryResultSender.sign ch0))
    (hdec : cd.decodeSign raw = some (SignMessage.signPart2 m))
    (hp2 : ops.signPart2 w.frost_dkg m = (st', Except.ok (some sig))) :
    handle_command ops w (Command.sign msg ch)
      = (w, [Effect.replySign ch (Except.error busyMsg)]) ∧
    handle_sign_message ops cd w raw
      = ({ w with frost_dkg := st', sign_sender := none },
         [Effect.replySign ch0 (Except.ok sig)]) := by
  constructor
  · simp [handle_command, hslot]
  · simp [handle_sign_message, hdec, hp2, deliver_sign, hslot]

/-- C2 witness: a worker with channel `5` pending rejects a new sign
request on channel `6` with the busy error and still delivers signature
`7` to channel `5` when the round completes. -/
theorem c2_sign_busy_guard_witness :
    handle_command toyOps ⟨0, none, some (QueryResultSender.sign 5)⟩ (Command.sign [9] 6)
      = (⟨0, none, some (QueryResultSender.sign 5)⟩,
         [Effect.replySign 6 (Except.error busyMsg)]) ∧
    handle_sign_message toyOps toyCodec ⟨0, none, some (QueryResultSender.sign 5)⟩ [2, 3]
      = (⟨1, none, none⟩, [Effect.replySign 5 (Except.ok 7)]) :=
  c2_sign_busy_guard toyOps toyCodec ⟨0, none, some (QueryResultSender.sign 5)⟩
    5 6 [9] [2, 3] 3 1 7 rfl rfl rfl

/-- C3: a `RotateKey` command always starts key generation (the engine
is advanced by `start_dkg`, and on success the first-phase message is
published) and unconditionally sets the DKG reply slot to the new
caller's channel — there is no busy guard, so a previously pending
caller's channel is overwritten and no reply is ever emitted to it. -/
theorem c3_rotate_key_unguarded_overwrite (ops : FrostOps) (w : Worker) (ch : Nat) :
    (handle_command ops w (Command.rotateKey ch)).1.dkg_sender
      = some (QueryResultSender.rotateKey ch) ∧
    (handle_command ops w (Command.rotateKey ch)).1.frost_dkg
      = (ops.startDkg w.frost_dkg).1 ∧
    (handle_command ops w (Command.rotateKey ch)).1.sign_sender = w.sign_sender ∧
    (∀ m, (ops.startDkg w.frost_dkg).2 = Except.ok m →
      (handle_command ops w (Command.rotateKey ch)).2
        = [Effect.publish DKG_TOPIC (Payload.raw m)]) ∧
    (∀ ch2 r, Effect.replyRotateKey ch2 r ∉ (handle_command ops w (Command.rotateKey ch)).2) := by
  rcases h : ops.startDkg w.frost_dkg with ⟨st, res⟩
  cases res with
  | ok msg => simp [handle_command, start_dkg, h]
  | error e => simp [handle_command, start_dkg, h]

/-- C3 witness: with channel `1` still pending, a second `RotateKey` on
channel `2` overwrites the slot and channel `1` never gets a reply. -/
theorem c3_rotate_key_unguarded_overwrite_witness :
    (handle_command toyOps ⟨0, some (QueryResultSender.rotateKey 1), none⟩
        (Command.rotateKey 2)).1.dkg_sender = some (QueryResultSender.rotateKey 2) ∧
    Effect.replyRotateKey 1 (Except.ok 100)
      ∉ (handle_command toyOps ⟨0, some (QueryResultSender.rotateKey 1), none⟩
          (Command.rotateKey 2)).2 := by
  have h := c3_rotate_key_unguarded_overwrite toyOps
    ⟨0, some (QueryResultSender.rotateKey 1), none⟩ 2
  exact ⟨h.1, h.2.2.2.2 1 (Except.ok 100)⟩

/-- C8: a second-phase DKG message that completes the round clears the
pending key-generation slot and delivers the verifying key to it exactly
once when it is occupied — and delivers nothing when nobody is waiting;
a protocol error at this phase likewise clears the slot and delivers the
error exactly once to an occupied slot. -/
theorem c8_dkg_part2_completion (ops : FrostOps) (cd : Codec) (w : Worker)
    (raw : List Nat) (m st' : Nat)
    (hdec : cd.decodeDkg raw = some (DkgMessage.dkgPart2 m)) :
    (∀ key ch, ops.dkgPart2 w.frost_dkg m = (st', Except.ok (some key)) →
      ((handle_dkg_message ops cd w raw).1.dkg_sender = none ∧
       (w.dkg_sender = some (QueryResultSender.rotateKey ch) →
         (handle_dkg_message ops cd w raw).2
           = [Effect.replyRotateKey ch (Except.ok key)]) ∧
       (w.dkg_sender = none → (handle_dkg_message ops cd w raw).2 = []))) ∧
    (∀ e ch, ops.dkgPart2 w.frost_dkg m = (st', Except.error e) →
      ((handle_dkg_message ops cd w raw).1.dkg_sender = none ∧
       (w.dkg_sender = some (QueryResultSender.rotateKey ch) →
         (handle_dkg_message ops cd w raw).2
           = [Effect.replyRotateKey ch (Except.error e), Effect.logError dkgPart2ErrLog]) ∧
       (w.dkg_sender = none →
         (handle_dkg_message ops cd w raw).2 = [Effect.logError dkgPart2ErrLog]))) := by
  constructor
  · intro key ch hok
    refine ⟨?_, ?_, ?_⟩
    · simp [handle_dkg_message, hdec, hok]
    · intro hws; simp [handle_dkg_message, hdec, hok, deliver_rotate, hws]
    · intro hws; simp [handle_dkg_message, hdec, hok, deliver_rotate, hws]
  · intro e ch herr
    refine ⟨?_, ?_, ?_⟩
    · simp [handle_dkg_message, hdec, herr]
    · intro hws; simp [handle_dkg_message, hdec, herr, deliver_rotate, hws]
    · intro hws; simp [handle_dkg_message, hdec, herr, deliver_rotate, hws]

/-- C8 witness: with channel `3` pending, a completing part-2 message
delivers key `42` and clears the slot; a failing one delivers the
protocol error; with no pending caller the completed key is dropped. -/
theorem c8_dkg_part2_completion_witness :
    (handle_dkg_message toyOps toyCodec
        ⟨0, some (QueryResultSender.rotateKey 3), none⟩ [2, 5]).1.dkg_sender = none ∧
    (handle_dkg_message toyOps toyCodec
        ⟨0, some (QueryResultSender.rotateKey 3), none⟩ [2, 5]).2
      = [Effect.replyRotateKey 3 (Except.ok 42)] ∧
    (handle_dkg_message toyOps toyCodec
        ⟨0, some (QueryResultSender.rotateKey 3), none⟩ [2, 0]).2
      = [Effect.replyRotateKey 3 (Except.error protoErr), Effect.logError dkgPart2ErrLog] ∧
    (handle_dkg_message toyOps toyCodec ⟨0, none, none⟩ [2, 5]).2 = [] := by
  have h1 := c8_dkg_part2_completion toyOps toyCodec
    ⟨0, some (QueryResultSender.rotateKey 3), none⟩ [2, 5] 5 1 rfl
  have h2 := c8_dkg_part2_completion toyOps toyCodec
    ⟨0, some (QueryResultSender.rotateKey 3), none⟩ [2, 0] 0 1 rfl
  have h3 := c8_dkg_part2_completion toyOps toyCodec ⟨0, none, none⟩ [2, 5] 5 1 rfl
  exact ⟨(h1.1 42 3 rfl).1, (h1.1 42 3 rfl).2.1 rfl,
    (h2.2 protoErr 3 rfl).2.1 rfl, (h3.1 42 0 rfl).2.2 rfl⟩

/-- C9: a byte sequence failing deserialization on the DKG or Sign topic
is only logged and discarded — the worker state (both reply slots and
the engine) is bit-for-bit unchanged, no reply is sent — and the event
loop goes on: running the loop on the malformed message followed by any
remaining events reaches exactly the state the remaining events alone
would produce, with only an extra log line. -/
theorem c9_deser_failure_is_isolated (ops : FrostOps) (cd : Codec) (w : Worker)
    (raw raw2 : List Nat) (rest : List Event)
    (hd : cd.decodeDkg raw = none) (hs : cd.decodeSign raw2 = none) :
    handle_dkg_message ops cd w raw = (w, [Effect.logError dkgDeserLog]) ∧
    handle_sign_message ops cd w raw2 = (w, [Effect.logError signDeserLog]) ∧
    run_events ops cd w (Event.dkgMsg raw :: rest)
      = ((run_events ops cd w rest).1,
         Effect.logError dkgDeserLog :: (run_events ops cd w rest).2) ∧
    run_events ops cd w (Event.signMsg raw2 :: rest)
      = ((run_events ops cd w rest).1,
         Effect.logError signDeserLog :: (run_events ops cd w rest).2) := by
  have h1 : handle_dkg_message ops cd w raw = (w, [Effect.logError dkgDeserLog]) := by
    simp [handle_dkg_message, hd]
  have h2 : handle_sign_message ops cd w raw2 = (w, [Effect.logError signDeserLog]) := by
    simp [handle_sign_message, hs]
  refine ⟨h1, h2, ?_, ?_⟩
  · simp [run_events, step_event, h1]
  · simp [run_events, step_event, h2]

/-- C9 witness: the malformed payload `[9]` is logged and dropped with
channel `3` still pending, and a following well-formed part-2 message is
processed exactly as if the malformed one had never arrived. -/
theorem c9_deser_failure_is_isolated_witness :
    handle_dkg_message toyOps toyCodec ⟨0, some (QueryResultSender.rotateKey 3), none⟩ [9]
      = (⟨0, some (QueryResultSender.rotateKey 3), none⟩, [Effect.logError dkgDeserLog]) ∧
    run_events toyOps toyCodec ⟨0, some (QueryResultSender.rotateKey 3), none⟩
        [Event.dkgMsg [9], Event.dkgMsg [2, 5]]
      = ((run_events toyOps toyCodec ⟨0, some (QueryResultSender.rotateKey 3), none⟩
            [Event.dkgMsg [2, 5]]).1,
         Effect.logError dkgDeserLog
           :: (run_events toyOps toyCodec ⟨0, some (QueryResultSender.rotateKey 3), none⟩
                [Event.dkgMsg [2, 5]]).2) := by
  have h := c9_deser_failure_is_isolated toyOps toyCodec
    ⟨0, some (QueryResultSender.rotateKey 3), none⟩ [9] [9] [Event.dkgMsg [2, 5]] rfl rfl
  exact ⟨h.1, h.2.2.1⟩
